import Mathlib

/-!
Verification of the Mapbox MCP example scripts (CrewAI / LangGraph / Pydantic AI).

This file gives a shallow embedding of the Python glue code of the repository:
the `extract_map_commands` response post-processor of
`examples/pydantic-ai/warsaw_gradio_blocks_interactive.py` together with the
regex and `json` machinery it relies on, the tool-server configuration
functions of the three frameworks, the chat handlers, the `respond` UI
handler, and the pydantic `Location` schema.  Python exceptions are modelled
with `Except`; strings are modelled as `List Char` (with `String` wrappers for
readable statements); machine behaviour that the scripts never use (floats as
numbers to compute with, OS paths, sockets) is kept symbolic.
-/

/-- The Python exceptions that the embedded code can raise:
`EnvironmentError` and `ValueError` from the configuration functions,
`json.JSONDecodeError` from `json.loads`. -/
inductive PyExc where
  | environmentError (msg : String)
  | valueError (msg : String)
  | jsonDecodeError (msg : String)
deriving DecidableEq, Repr

/-- Python `str(e)` on the exceptions above: the message. -/
def pyExcStr : PyExc → String
  | .environmentError m => m
  | .valueError m => m
  | .jsonDecodeError m => m

/-- Models `try: act except json.JSONDecodeError as e: handler e`:
only a `JSONDecodeError` is caught, any other exception propagates. -/
def tryExceptJSONDecode {α : Type} (act : Except PyExc α)
    (handler : String → Except PyExc α) : Except PyExc α :=
  match act with
  | .error (.jsonDecodeError m) => handler m
  | other => other

/-- A Python *float* as it appears in the scripts: an uninterpreted literal.
No floating-point arithmetic occurs anywhere in the repository; coordinates
are only constructed, validated and printed. -/
structure PyFloat where
  lex : String
deriving DecidableEq, Repr

/-- A parsed JSON value, the result type of the embedded `json.loads`.
Numbers keep their source lexeme: the scripts never compute with the numbers
of a command block, they only re-serialize them. -/
inductive JValue where
  | null
  | bool (b : Bool)
  | num (lex : String)
  | str (s : String)
  | arr (elems : List JValue)
  | obj (members : List (String × JValue))

/-- Python `isinstance(v, list)` on a parsed JSON value. -/
def jIsArr : JValue → Bool
  | .arr _ => true
  | _ => false

/-- The elements of a JSON array, `[]` for any other value. -/
def jArrElems : JValue → List JValue
  | .arr xs => xs
  | _ => []

/-- JSON whitespace (RFC 8259, as accepted by Python `json`). -/
def jWs (c : Char) : Bool :=
  c = ' ' || c = '\t' || c = '\n' || c = '\r'

/-- Drop leading JSON whitespace. -/
def skipJWs (cs : List Char) : List Char :=
  cs.dropWhile jWs

/-- Hex digit value, if any. -/
def hexVal (c : Char) : Option Nat :=
  if '0' ≤ c ∧ c ≤ '9' then some (c.toNat - ('0').toNat)
  else if 'a' ≤ c ∧ c ≤ 'f' then some (c.toNat - ('a').toNat + 10)
  else if 'A' ≤ c ∧ c ≤ 'F' then some (c.toNat - ('A').toNat + 10)
  else none

/-- Body of a JSON string after the opening quote, in Python strict mode:
standard escapes, `\uXXXX`, unescaped control characters rejected.
Returns the decoded characters and the input after the closing quote. -/
def parseJStr (acc : List Char) : List Char → Except String (List Char × List Char)
  | [] => .error "Unterminated string"
  | c :: rest =>
    if c = '"' then .ok (acc.reverse, rest)
    else if c = '\\' then
      match rest with
      | [] => .error "Unterminated string"
      | e :: rest2 =>
        if e = '"' then parseJStr ('"' :: acc) rest2
        else if e = '\\' then parseJStr ('\\' :: acc) rest2
        else if e = '/' then parseJStr ('/' :: acc) rest2
        else if e = 'b' then parseJStr ('\x08' :: acc) rest2
        else if e = 'f' then parseJStr ('\x0c' :: acc) rest2
        else if e = 'n' then parseJStr ('\n' :: acc) rest2
        else if e = 'r' then parseJStr ('\r' :: acc) rest2
        else if e = 't' then parseJStr ('\t' :: acc) rest2
        else if e = 'u' then
          match rest2 with
          | h1 :: h2 :: h3 :: h4 :: rest3 =>
            match hexVal h1, hexVal h2, hexVal h3, hexVal h4 with
            | some a, some b, some c2, some d =>
              parseJStr (Char.ofNat (((a * 16 + b) * 16 + c2) * 16 + d) :: acc) rest3
            | _, _, _, _ => .error "Invalid hex escape"
          | _ => .error "Invalid hex escape"
        else .error "Invalid escape"
    else if c.toNat < 32 then .error "Invalid control character"
    else parseJStr (c :: acc) rest

/-- Lex a JSON number starting at the first character (sign or digit).
Returns the lexeme and the rest of the input. -/
def lexJNum (cs : List Char) : Except String (List Char × List Char) :=
  let (sign, r1) :=
    match cs with
    | '-' :: r => (['-'], r)
    | _ => (([] : List Char), cs)
  match r1 with
  | '0' :: r2 =>
    let (frac, r3) := lexJNumFrac r2
    .ok (sign ++ ['0'] ++ frac, r3)
  | c :: _ =>
    if c.isDigit then
      let intPart := r1.takeWhile Char.isDigit
      let r2 := r1.dropWhile Char.isDigit
      let (frac, r3) := lexJNumFrac r2
      .ok (sign ++ intPart ++ frac, r3)
    else .error "Expecting value"
  | [] => .error "Expecting value"
where
  /-- Optional fraction and exponent parts. -/
  lexJNumFrac (cs : List Char) : List Char × List Char :=
    let (frac, r1) :=
      match cs with
      | '.' :: r =>
        let ds := r.takeWhile Char.isDigit
        if ds.isEmpty then (([] : List Char), cs)
        else ('.' :: ds, r.dropWhile Char.isDigit)
      | _ => ([], cs)
    let (ex, r2) :=
      match r1 with
      | e :: r =>
        if e = 'e' ∨ e = 'E' then
          let (es, r') :=
            match r with
            | s :: r'' => if s = '+' ∨ s = '-' then ([e, s], r'') else ([e], r)
            | [] => ([e], r)
          let ds := r'.takeWhile Char.isDigit
          if ds.isEmpty then (([] : List Char), r1)
          else (es ++ ds, r'.dropWhile Char.isDigit)
        else ([], r1)
      | [] => ([], r1)
    (frac ++ ex, r2)

mutual

/-- Recursive-descent JSON value parser, the core of the embedded
`json.loads`.  The fuel bounds the recursion depth, coarsely modelling
Python's recursion limit; `json_loads` supplies ample fuel. -/
def parseJVal : Nat → List Char → Except String (JValue × List Char)
  | 0, _ => .error "Maximum recursion depth exceeded"
  | fuel + 1, cs0 =>
    match skipJWs cs0 with
    | [] => .error "Expecting value"
    | c :: rest =>
      if c = '"' then
        match parseJStr [] rest with
        | .ok (s, r) => .ok (.str (String.mk s), r)
        | .error e => .error e
      else if c = '\x7b' then parseJMembers fuel (skipJWs rest) [] true
      else if c = '[' then parseJElems fuel (skipJWs rest) [] true
      else if c = 't' then
        match rest with
        | 'r' :: 'u' :: 'e' :: r => .ok (.bool true, r)
        | _ => .error "Expecting value"
      else if c = 'f' then
        match rest with
        | 'a' :: 'l' :: 's' :: 'e' :: r => .ok (.bool false, r)
        | _ => .error "Expecting value"
      else if c = 'n' then
        match rest with
        | 'u' :: 'l' :: 'l' :: r => .ok (.null, r)
        | _ => .error "Expecting value"
      else if c = 'N' then
        match rest with
        | 'a' :: 'N' :: r => .ok (.num ("NaN"), r)
        | _ => .error "Expecting value"
      else if c = 'I' then
        match rest with
        | 'n' :: 'f' :: 'i' :: 'n' :: 'i' :: 't' :: 'y' :: r => .ok (.num ("Infinity"), r)
        | _ => .error "Expecting value"
      else if c = '-' then
        match rest with
        | 'I' :: 'n' :: 'f' :: 'i' :: 'n' :: 'i' :: 't' :: 'y' :: r =>
          .ok (.num ("-Infinity"), r)
        | _ =>
          match lexJNum (c :: rest) with
          | .ok (lexeme, r) => .ok (.num (String.mk lexeme), r)
          | .error e => .error e
      else if c.isDigit then
        match lexJNum (c :: rest) with
        | .ok (lexeme, r) => .ok (.num (String.mk lexeme), r)
        | .error e => .error e
      else .error "Expecting value"

/-- Elements of a JSON array after `[` (whitespace already skipped).
`first` is true before the first element, so `[]` is accepted. -/
def parseJElems : Nat → List Char → List JValue → Bool → Except String (JValue × List Char)
  | 0, _, _, _ => .error "Maximum recursion depth exceeded"
  | fuel + 1, cs, acc, first =>
    match cs with
    | ']' :: r =>
      if first then .ok (.arr [], r)
      else .error "Expecting value"
    | _ =>
      match parseJVal fuel cs with
      | .error e => .error e
      | .ok (v, r) =>
        match skipJWs r with
        | ',' :: r2 => parseJElems fuel (skipJWs r2) (v :: acc) false
        | ']' :: r2 => .ok (.arr (v :: acc).reverse, r2)
        | _ => .error "Expecting delimiter"

/-- Members of a JSON object after the opening brace (whitespace already
skipped).  `first` is true before the first member. -/
def parseJMembers : Nat → List Char → List (String × JValue) → Bool →
    Except String (JValue × List Char)
  | 0, _, _, _ => .error "Maximum recursion depth exceeded"
  | fuel + 1, cs, acc, first =>
    match cs with
    | '\x7d' :: r =>
      if first then .ok (.obj [], r)
      else .error "Expecting property name"
    | '"' :: r =>
      match parseJStr [] r with
      | .error e => .error e
      | .ok (k, r1) =>
        match skipJWs r1 with
        | ':' :: r2 =>
          match parseJVal fuel (skipJWs r2) with
          | .error e => .error e
          | .ok (v, r3) =>
            match skipJWs r3 with
            | ',' :: r4 => parseJMembers fuel (skipJWs r4) ((String.mk k, v) :: acc) false
            | '\x7d' :: r4 => .ok (.obj ((String.mk k, v) :: acc).reverse, r4)
            | _ => .error "Expecting delimiter"
        | _ => .error "Expecting colon delimiter"
    | _ => .error "Expecting property name"

end

/-- The embedded `json.loads`: parse one JSON value, allow surrounding
whitespace, reject trailing data.  Every failure is a `JSONDecodeError`. -/
def json_loads (cs : List Char) : Except PyExc JValue :=
  match parseJVal (2 * cs.length + 2) cs with
  | .error m => .error (.jsonDecodeError m)
  | .ok (v, rest) =>
    if (skipJWs rest).isEmpty then .ok v
    else .error (.jsonDecodeError ("Extra data"))

/-- `json.loads` on a `String`. -/
def json_loadsS (s : String) : Except PyExc JValue :=
  json_loads s.data

/-! ## The `MAP_COMMANDS` regex of `warsaw_gradio_blocks_interactive.py`

The pattern is `r'```MAP_COMMANDS\s*\n([\s\S]*?)\n```'`, scanned with
`re.finditer`.  We embed exactly this one pattern: leftmost scanning, greedy
`\s*` with backtracking so that the last newline of the whitespace run is
consumed by the `\n`, lazy body up to the first `\n```. -/

/-- Python `\s` on the ASCII range (for `str` patterns Python also matches a
few Unicode spaces; the scripts only ever see ASCII markup). -/
def isPySpace (c : Char) : Bool :=
  c = ' ' || c = '\t' || c = '\n' || c = '\r' || c = '\x0b' || c = '\x0c'

/-- The literal opening of a command block. -/
def mapCmdLit : List Char :=
  ("```MAP_COMMANDS").data

/-- The closing delimiter `\n```` of a command block. -/
def mapCmdCloser : List Char :=
  ("\n```").data

/-- Index of the last `'\n'` in a list, if any: the backtracking point of the
greedy `\s*` followed by `\n`. -/
def lastNewlineIdx (run : List Char) : Option Nat :=
  match (run.reverse).findIdx? (fun c => c = '\n') with
  | some k => some (run.length - 1 - k)
  | none => none

/-- Lazy search for the closing `\n````: the shortest prefix (the group-1
body) such that the rest starts with the closer.  Returns body and the input
after the closer. -/
def splitAtCloser (acc : List Char) : List Char → Option (List Char × List Char)
  | [] => none
  | c :: r =>
    if mapCmdCloser.isPrefixOf (c :: r) then some (acc.reverse, (c :: r).drop 4)
    else splitAtCloser (c :: acc) r

/-- Try the pattern anchored at the head of `cs`.  On success, returns
(group 0, group 1, rest of the input after the match). -/
def matchBlockAt (cs : List Char) : Option (List Char × List Char × List Char) :=
  if mapCmdLit.isPrefixOf cs then
    let after := cs.drop mapCmdLit.length
    let run := after.takeWhile isPySpace
    match lastNewlineIdx run with
    | none => none
    | some j =>
      let consumed := after.take (j + 1)
      match splitAtCloser [] (after.drop (j + 1)) with
      | none => none
      | some (body, rest) =>
        some (mapCmdLit ++ consumed ++ body ++ mapCmdCloser, body, rest)
  else none

/-- `re.finditer` scan: try each position left to right, and continue after
the end of each match.  The fuel is the input length; every step consumes at
least one character. -/
def findMatchesGo : Nat → List Char → List (List Char × List Char)
  | 0, _ => []
  | _, [] => []
  | fuel + 1, c :: tl =>
    match matchBlockAt (c :: tl) with
    | some (g0, g1, rest) => (g0, g1) :: findMatchesGo fuel rest
    | none => findMatchesGo fuel tl

/-- All matches of the `MAP_COMMANDS` pattern, as (group 0, group 1) pairs in
order of occurrence. -/
def findMatches (text : List Char) : List (List Char × List Char) :=
  findMatchesGo text.length text

/-- `findMatches` on a `String`, for readable statements. -/
def findMatchesS (s : String) : List (String × String) :=
  (findMatches s.data).map (fun m => (String.mk m.1, String.mk m.2))

/-! ## Python string primitives used by `extract_map_commands` -/

/-- One scan step of Python `str.replace`: replace non-overlapping occurrences
of `old` left to right. -/
def replaceAllGo (old new : List Char) : Nat → List Char → List Char
  | 0, r => r
  | _, [] => []
  | fuel + 1, c :: tl =>
    if old.isPrefixOf (c :: tl) then new ++ replaceAllGo old new fuel ((c :: tl).drop old.length)
    else c :: replaceAllGo old new fuel tl

/-- Python `s.replace(old, new)` for non-empty `old` (the only way the
scripts call it; for `old = ""` we leave `s` unchanged). -/
def replaceAll (s old new : List Char) : List Char :=
  match old with
  | [] => s
  | _ => replaceAllGo old new s.length s

/-- Python `str.strip()` (ASCII whitespace, which is all the scripts produce). -/
def pyStrip (cs : List Char) : List Char :=
  ((cs.dropWhile isPySpace).reverse.dropWhile isPySpace).reverse

/-- `str.strip()` on a `String`. -/
def pyStripS (s : String) : String :=
  String.mk (pyStrip s.data)

/-! ## `extract_map_commands` -/

/-- One iteration of the `for match in matches:` loop of
`extract_map_commands`: `json.loads` the block body inside
`try ... except json.JSONDecodeError`; on success extend the command list if
the value is a Python list and strip the block from the text; on a decode
error, log and keep the state unchanged. -/
def extractStep (st : List Char × List JValue) (m : List Char × List Char) :
    Except PyExc (List Char × List JValue) :=
  tryExceptJSONDecode
    (do
      let commands ← json_loads m.2
      let acc := if jIsArr commands then st.2 ++ jArrElems commands else st.2
      pure (pyStrip (replaceAll st.1 m.1 []), acc))
    (fun _ => pure st)

/-- The loop of `extract_map_commands` over the list of matches. -/
def extractLoop : List (List Char × List Char) → List Char × List JValue →
    Except PyExc (List Char × List JValue)
  | [], st => pure st
  | m :: ms, st =>
    match extractStep st m with
    | .ok st2 => extractLoop ms st2
    | .error e => .error e

/-- The embedded `extract_map_commands` of
`warsaw_gradio_blocks_interactive.py`: find all `MAP_COMMANDS` blocks, return
the text unchanged with no commands when there are none, otherwise run the
extraction loop starting from the full text and an empty command list.
Exceptions are explicit in the result type. -/
def extract_map_commands (text : List Char) : Except PyExc (List Char × List JValue) :=
  let ms := findMatches text
  if ms.isEmpty then pure (text, [])
  else extractLoop ms (text, [])

/-- `extract_map_commands` on a `String`, for readable statements. -/
def extract_map_commandsS (s : String) : Except PyExc (String × List JValue) :=
  (extract_map_commands s.data).map (fun p => (String.mk p.1, p.2))

/-! Specification-side reformulations used to state the claims. -/

/-- The commands one matched block contributes: the elements of its body when
that body parses as a JSON array, nothing otherwise. -/
def blockCmds (g1 : List Char) : List JValue :=
  match json_loads g1 with
  | .ok (.arr xs) => xs
  | _ => []

/-- The effect of one matched block on the display text: blocks whose body
parses as JSON (array or not) are removed (all occurrences) and the text
stripped; blocks whose body fails to parse leave the text unchanged. -/
def cleanStep (c : List Char) (m : List Char × List Char) : List Char :=
  match json_loads m.2 with
  | .ok _ => pyStrip (replaceAll c m.1 [])
  | .error _ => c

/-! ## `json.dumps` (used by `chat_with_map_control` on the success path) -/

/-- Lower-case hex digit. -/
def hexDigit (n : Nat) : Char :=
  if n < 10 then Char.ofNat (48 + n) else Char.ofNat (87 + n)

/-- Escape one character of a JSON string as Python `json.dumps` does with
its default `ensure_ascii=True` (non-ASCII to `\uXXXX`; astral characters
would need surrogate pairs, which the scripts never produce). -/
def jsonEscapeChar (c : Char) : List Char :=
  if c = '"' then ['\\', '"']
  else if c = '\\' then ['\\', '\\']
  else if c = '\n' then ['\\', 'n']
  else if c = '\t' then ['\\', 't']
  else if c = '\r' then ['\\', 'r']
  else if c = '\x08' then ['\\', 'b']
  else if c = '\x0c' then ['\\', 'f']
  else if c.toNat < 32 ∨ c.toNat > 126 then
    let n := c.toNat
    ['\\', 'u', hexDigit (n / 4096 % 16), hexDigit (n / 256 % 16),
      hexDigit (n / 16 % 16), hexDigit (n % 16)]
  else [c]

/-- A JSON string literal as serialized by `json.dumps`. -/
def jsonEscape (s : String) : String :=
  "\"" ++ String.mk ((s.data.map jsonEscapeChar).flatten) ++ "\""

mutual

/-- `json.dumps` on one value, with Python's default separators
(`", "` and `": "`). -/
def dumpJVal : JValue → String
  | .null => "null"
  | .bool true => "true"
  | .bool false => "false"
  | .num l => l
  | .str s => jsonEscape s
  | .arr xs => "[" ++ dumpJList xs ++ "]"
  | .obj ms => "\x7b" ++ dumpJMembers ms ++ "\x7d"

/-- Array elements, `", "`-separated. -/
def dumpJList : List JValue → String
  | [] => ""
  | [x] => dumpJVal x
  | x :: y :: tl => dumpJVal x ++ ", " ++ dumpJList (y :: tl)

/-- Object members, `", "`-separated with `": "` after each key. -/
def dumpJMembers : List (String × JValue) → String
  | [] => ""
  | [(k, v)] => jsonEscape k ++ ": " ++ dumpJVal v
  | (k, v) :: kw :: tl => jsonEscape k ++ ": " ++ dumpJVal v ++ ", " ++ dumpJMembers (kw :: tl)

end

/-- The embedded `json.dumps`. -/
def json_dumps (v : JValue) : String :=
  dumpJVal v

/-! ## Environment variables and tool-server configuration -/

/-- `os.environ.get(key)`: the process environment as an association list,
first binding wins. -/
def envGet (environ : List (String × String)) (key : String) : Option String :=
  match environ with
  | [] => none
  | (k, v) :: tl => if k = key then some v else envGet tl key

/-- Python truthiness test `not x` on `os.environ.get(...)`:
true for `None` and for the empty string. -/
def pyFalsyStrOpt : Option String → Bool
  | none => true
  | some s => s = ""

/-- The value behind an option known to be truthy. -/
def strOptVal (o : Option String) : String :=
  o.getD ""

/-- `os.path.join(base, p₁, …, pₙ)` for the relative components the scripts
use. -/
def os_path_join (base : String) (parts : List String) : String :=
  parts.foldl (fun a p => a ++ "/" ++ p) base

/-- The path of the locally built server,
`os.path.join(script_dir, "..", "..", "dist", "esm", "index.js")`. -/
def dist_script_path (script_dir : String) : String :=
  os_path_join script_dir [("..") , ".." , "dist" , "esm" , "index.js"]

/-- The message of the `EnvironmentError` raised when the access token is
missing (identical in all three scripts). -/
def accessTokenRequiredMsg : String :=
  "MAPBOX_ACCESS_TOKEN environment variable is required. " ++
    "Get your token at https://account.mapbox.com/"

/-- An `MCPServerStdio` configuration as the pydantic-ai and crewai scripts
construct it: command, arguments, subprocess environment, optional timeout. -/
structure MCPServerStdio where
  command : String
  args : List String
  env : List (String × String)
  timeout : Option Nat := none
deriving DecidableEq, Repr

/-- `get_mcp_server` of `warsaw_gradio_blocks_interactive.py` (and of
`warsaw_gradio.py`): raise `EnvironmentError` when `MAPBOX_ACCESS_TOKEN` is
unset or empty, otherwise a `node` stdio server whose environment holds
exactly the token. -/
def get_mcp_server (environ : List (String × String)) (script_dir : String) :
    Except PyExc MCPServerStdio :=
  let mapbox_token := envGet environ ("MAPBOX_ACCESS_TOKEN")
  if pyFalsyStrOpt mapbox_token then
    .error (.environmentError accessTokenRequiredMsg)
  else
    .ok { command := "node"
          args := [dist_script_path script_dir]
          env := [("MAPBOX_ACCESS_TOKEN", strOptVal mapbox_token)]
          timeout := some 30 }

/-- `get_mapbox_mcp_config` of `crewai_example.py`: token guard, then a
`node` or `npx` stdio configuration, else `ValueError`. -/
def get_mapbox_mcp_config (environ : List (String × String)) (script_dir : String)
    (connection_type : String := "node") : Except PyExc MCPServerStdio :=
  let mapbox_token := envGet environ ("MAPBOX_ACCESS_TOKEN")
  if pyFalsyStrOpt mapbox_token then
    .error (.environmentError accessTokenRequiredMsg)
  else
    let env := [(("MAPBOX_ACCESS_TOKEN" : String), strOptVal mapbox_token)]
    if connection_type = "node" then
      .ok { command := "node", args := [dist_script_path script_dir], env := env }
    else if connection_type = "npx" then
      .ok { command := "npx", args := [("-y"), "@mapbox/mcp-server"], env := env }
    else
      .error (.valueError ("Unknown connection type: " ++ connection_type))

/-- The configuration dictionary `langgraph_example.py` returns:
`{"mapbox": {"transport": "stdio", "command": …, "args": …, "env": …}}`. -/
structure LanggraphMcpConfig where
  serverName : String
  transport : String
  command : String
  args : List String
  env : List (String × String)
deriving DecidableEq, Repr

/-- `get_mcp_config` of `langgraph_example.py`. -/
def get_mcp_config (environ : List (String × String)) (script_dir : String)
    (connection_type : String := "node") : Except PyExc LanggraphMcpConfig :=
  let mapbox_token := envGet environ ("MAPBOX_ACCESS_TOKEN")
  if pyFalsyStrOpt mapbox_token then
    .error (.environmentError accessTokenRequiredMsg)
  else
    let env := [(("MAPBOX_ACCESS_TOKEN" : String), strOptVal mapbox_token)]
    if connection_type = "node" then
      .ok { serverName := "mapbox", transport := "stdio", command := "node",
            args := [dist_script_path script_dir], env := env }
    else if connection_type = "npx" then
      .ok { serverName := "mapbox", transport := "stdio", command := "npx",
            args := [("-y"), "@mapbox/mcp-server"], env := env }
    else
      .error (.valueError ("Unknown connection type: " ++ connection_type))

/-! ## The public-token startup check of the interactive-map script -/

/-- The outcome of a module-level startup fragment: raise an exception,
print a warning and keep going, or proceed normally. -/
inductive StartupAction where
  | raiseError (msg : String)
  | warnContinue
  | okContinue
deriving DecidableEq, Repr

/-- Whether a startup outcome is a raised configuration error. -/
def raisesConfigError : StartupAction → Bool
  | .raiseError _ => true
  | _ => false

/-- Lines 262–270 of `warsaw_gradio_blocks_interactive.py`:
`mapbox_public_token = os.environ.get("MAPBOX_PUBLIC_TOKEN", "")`, then
`if not mapbox_public_token:` print three warning lines, `else` print a
success line — the script continues in both branches. -/
def public_token_startup (environ : List (String × String)) : StartupAction :=
  let mapbox_public_token := (envGet environ ("MAPBOX_PUBLIC_TOKEN")).getD ""
  if mapbox_public_token = "" then .warnContinue else .okContinue

/-! ## Chat handlers

Each handler wraps its whole body in `try: … except Exception as e: return
"Sorry, I encountered an error: " + str(e)`.  The agent interaction (model
call plus tool use, an external service) is a parameter: its outcome is an
`Except PyExc` value fed to the embedded body. -/

/-- The apologetic reply every handler builds from a caught exception. -/
def sorryReply (e : PyExc) : String :=
  "Sorry, I encountered an error: " ++ pyExcStr e

/-- `chat_async` of `pydantic-ai/warsaw_gradio.py`: return the agent output,
or the apologetic reply on any exception. -/
def chat_async (agentRun : Except PyExc String) : String :=
  match agentRun with
  | .ok result => result
  | .error e => sorryReply e

/-- `chat_with_map_control` of `warsaw_gradio_blocks_interactive.py`:
run the agent, post-process the output with `extract_map_commands`, return
the clean text with the commands serialized by `json.dumps` (empty string
when there are none); any exception becomes the apologetic reply with an
empty command string. -/
def chat_with_map_control (agentRun : Except PyExc String) : String × String :=
  match (do
    let text_response ← agentRun
    let p ← extract_map_commands text_response.data
    pure (String.mk p.1,
      if p.2.isEmpty then "" else json_dumps (.arr p.2))) with
  | .ok r => r
  | .error e => (sorryReply e, "")

/-- The literal the LangGraph handler looks for with `in`. -/
def mapboxHost : String :=
  "api.mapbox.com"

/-- The literal prefix of the URL regex
`r'https://api\.mapbox\.com/[^\s\)]+'`. -/
def mapboxUrlLit : List Char :=
  ("https://api.mapbox.com/").data

/-- `re.search` for that pattern: leftmost occurrence of the literal followed
by at least one character that is neither whitespace nor `')'`, taken
greedily. -/
def urlSearchGo : Nat → List Char → Option (List Char)
  | 0, _ => none
  | _, [] => none
  | fuel + 1, c :: tl =>
    if mapboxUrlLit.isPrefixOf (c :: tl) then
      let after := (c :: tl).drop mapboxUrlLit.length
      let body := after.takeWhile (fun ch => !(isPySpace ch) && ch ≠ ')')
      if body.isEmpty then urlSearchGo fuel tl
      else some (mapboxUrlLit ++ body)
    else urlSearchGo fuel tl

/-- The match of the static-map URL regex in one message, if any. -/
def searchMapboxUrl (content : String) : Option String :=
  (urlSearchGo content.data.length content.data).map String.mk

/-- Python `needle in haystack` on strings. -/
def listContainsSub (needle : List Char) : List Char → Bool
  | [] => needle.isEmpty
  | c :: tl => needle.isPrefixOf (c :: tl) || listContainsSub needle tl

/-- The URL-extraction loop of `chat_with_images`: first message whose
content contains `api.mapbox.com` and in which the regex finds a URL wins
(`break`); a message that passes the `in` test but defeats the regex does not
stop the loop. -/
def find_image_url : List String → Option String
  | [] => none
  | msg :: rest =>
    if listContainsSub mapboxHost.data msg.data then
      match searchMapboxUrl msg with
      | some url => some url
      | none => find_image_url rest
    else find_image_url rest

/-- `chat_with_images` of `langgraph/warsaw_gradio_blocks.py`: the text is
the content of the last agent message (`"No response"` when there is none),
the image is the first Mapbox static-map URL found in any message; any
exception becomes the apologetic reply with no image. -/
def chat_with_images (agentRun : Except PyExc (List String)) : String × Option String :=
  match (do
    let messages ← agentRun
    let text_response :=
      match messages.getLast? with
      | some m => m
      | none => "No response"
    pure (text_response, find_image_url messages)) with
  | .ok r => r
  | .error e => (sorryReply e, none)

/-! ## The `respond` UI handler of the interactive-map script -/

/-- One Gradio chat-history entry, `{"role": …, "content": …}`. -/
structure ChatMsg where
  role : String
  content : String
deriving DecidableEq, Repr

/-- `respond` of `warsaw_gradio_blocks_interactive.py`.  The agent pipeline
(`chat_wrapper`) and the map-file side effect (`create_map_with_commands`,
which writes an HTML file and returns iframe markup) are parameters, as is
the module-level initial `map_html`.  A message that strips to the empty
string short-circuits: the textbox is cleared, the history and the initial
map are returned untouched and neither parameter function is invoked. -/
def respond (chat_wrapper : String → List ChatMsg → String × String)
    (create_map_with_commands : String → String) (map_html : String)
    (message : String) (chat_history : List ChatMsg) :
    String × List ChatMsg × String :=
  if pyStripS message = "" then ("", chat_history, map_html)
  else
    let tc := chat_wrapper message chat_history
    let chat_history := chat_history ++
      [{ role := "user", content := message }, { role := "assistant", content := tc.1 }]
    ("", chat_history, create_map_with_commands tc.2)

/-! ## The pydantic `Location` schema -/

/-- The `Location` record of the three example scripts: three required
fields, three optional fields defaulting to `None`. -/
structure Location where
  name : String
  latitude : PyFloat
  longitude : PyFloat
  address : Option String := none
  country : Option String := none
  description : Option String := none
deriving DecidableEq, Repr

/-- The keyword arguments offered when constructing a `Location`: each field
either supplied or omitted. -/
structure LocationArgs where
  name : Option String := none
  latitude : Option PyFloat := none
  longitude : Option PyFloat := none
  address : Option String := none
  country : Option String := none
  description : Option String := none

/-- Pydantic validation of `Location(**kwargs)`: a missing required field is
a validation error (all of them reported); optional fields fall back to their
`None` default.  The error lists the missing field names. -/
def location_validate (a : LocationArgs) : Except (List String) Location :=
  match a.name, a.latitude, a.longitude with
  | some n, some la, some lo =>
    .ok { name := n, latitude := la, longitude := lo,
          address := a.address, country := a.country, description := a.description }
  | _, _, _ =>
    .error ((if a.name.isNone then [("name" : String)] else []) ++
      (if a.latitude.isNone then [("latitude" : String)] else []) ++
      (if a.longitude.isNone then [("longitude" : String)] else []))

/-! ## Helper lemmas about `extract_map_commands` -/

/-- Every failure of the embedded `json.loads` is a `JSONDecodeError` —
the fact that makes the `except json.JSONDecodeError` handler exhaustive. -/
theorem json_loads_error_jsonDecode (cs : List Char) (e : PyExc)
    (h : json_loads cs = .error e) : ∃ m, e = .jsonDecodeError m := by
  unfold json_loads at h
  cases hp : parseJVal (2 * cs.length + 2) cs with
  | error m =>
    rw [hp] at h
    exact ⟨m, (Except.error.inj h).symm⟩
  | ok p =>
    rw [hp] at h
    by_cases hr : (skipJWs p.2).isEmpty
    · simp [hr] at h
    · simp [hr] at h
      exact ⟨"Extra data", h.symm⟩

/-- One loop iteration of `extract_map_commands`, as a pure step: the clean
text evolves by `cleanStep`, the command list grows by `blockCmds`. -/
theorem extractStep_eq (st : List Char × List JValue) (m : List Char × List Char) :
    extractStep st m = .ok (cleanStep st.1 m, st.2 ++ blockCmds m.2) := by
  unfold extractStep cleanStep blockCmds
  cases h : json_loads m.2 with
  | ok v =>
    cases v <;>
      simp [h, tryExceptJSONDecode, jIsArr, jArrElems, bind, Except.bind, pure, Except.pure]
  | error e =>
    obtain ⟨msg, rfl⟩ := json_loads_error_jsonDecode _ _ h
    simp [h, tryExceptJSONDecode, bind, Except.bind, pure, Except.pure]

/-- The whole loop of `extract_map_commands`, as a pair of pure folds. -/
theorem extractLoop_eq (ms : List (List Char × List Char)) (c : List Char)
    (acc : List JValue) :
    extractLoop ms (c, acc) =
      .ok (ms.foldl cleanStep c, acc ++ (ms.map (fun m => blockCmds m.2)).flatten) := by
  induction ms generalizing c acc with
  | nil => simp [extractLoop, pure, Except.pure]
  | cons m tl ih =>
    rw [extractLoop, extractStep_eq]
    simp [ih, List.foldl]

/-! ## Claims about `extract_map_commands` -/

/-- C1, counterexample: the claim says every `MAP_COMMANDS` fenced block is
removed from the returned display text.  On a block whose body is not valid
JSON (`[1` here), `json.loads` raises before the `replace` line is reached,
so the block survives: the function returns the input unchanged (with no
commands) although the text contains a matched block. -/
theorem extract_malformed_block_not_removed :
    (extract_map_commandsS ("```MAP_COMMANDS\n[1\n```")).toOption.map
        (fun p => (p.1, p.2.length)) =
      some (("```MAP_COMMANDS\n[1\n```"), 0) ∧
    findMatchesS ("```MAP_COMMANDS\n[1\n```") ≠ [] :=
  ⟨by decide, by decide⟩

/-- C1, amended: for every input text, `extract_map_commands` returns
normally; the returned command list is the concatenation, in order of
occurrence, of the elements of every matched block whose body parses as a
JSON array; and the returned display text is the input transformed
block-by-block, each block whose body parses as JSON having all occurrences
of its matched text removed and the result stripped, while a block whose
body fails to parse leaves the text unchanged (so the returned text can
still contain `MAP_COMMANDS` blocks). -/
theorem extract_clean_text_and_commands (text : List Char) :
    extract_map_commands text =
      .ok ((findMatches text).foldl cleanStep text,
        ((findMatches text).map (fun m => blockCmds m.2)).flatten) := by
  unfold extract_map_commands
  rcases hms : findMatches text with _ | ⟨m, tl⟩ <;>
    simp [hms, extractLoop_eq, pure, Except.pure]

/-- C2: a `MAP_COMMANDS` block whose body fails to parse as JSON does not
make `extract_map_commands` raise: the block contributes no commands, and
the commands of every block in the same text whose body parses as a JSON
array are still returned, in order of occurrence. -/
theorem malformed_block_skipped_rest_collected (t : List Char)
    (m : List Char × List Char) (e : PyExc)
    (_hm : m ∈ findMatches t) (he : json_loads m.2 = .error e) :
    blockCmds m.2 = [] ∧
    ∃ clean, extract_map_commands t =
      .ok (clean, ((findMatches t).map (fun b => blockCmds b.2)).flatten) := by
  constructor
  · simp [blockCmds, he]
  · refine ⟨(findMatches t).foldl cleanStep t, ?_⟩
    unfold extract_map_commands
    rcases hms : findMatches t with _ | ⟨b, tl⟩ <;>
      simp [hms, extractLoop_eq, pure, Except.pure]

/-- C2, witness: a text holding one malformed block (`bad`) and one
well-formed block (`[3]`). -/
theorem malformed_block_skipped_rest_collected_witness :
    ((("```MAP_COMMANDS\nbad\n```").data, ("bad").data) ∈
      findMatches (("```MAP_COMMANDS\nbad\n```mid```MAP_COMMANDS\n[3]\n```").data)) ∧
    json_loads (("bad").data) = .error (.jsonDecodeError ("Expecting value")) ∧
    (blockCmds (("bad").data) = [] ∧
      ∃ clean, extract_map_commands
          (("```MAP_COMMANDS\nbad\n```mid```MAP_COMMANDS\n[3]\n```").data) =
        .ok (clean,
          ((findMatches (("```MAP_COMMANDS\nbad\n```mid```MAP_COMMANDS\n[3]\n```").data)).map
            (fun b => blockCmds b.2)).flatten)) :=
  ⟨by decide, rfl,
   malformed_block_skipped_rest_collected _
     ((("```MAP_COMMANDS\nbad\n```").data, ("bad").data))
     (.jsonDecodeError ("Expecting value")) (by decide) rfl⟩

/-- C6: `extract_map_commands` is not idempotent.  Removing the well-formed
inner block of this input concatenates its surroundings into a fresh
well-formed block, so the returned clean text still extracts to a command:
re-running the function on the returned clean text does not return that text
unchanged with an empty command list. -/
theorem extract_not_idempotent :
    (extract_map_commandsS ("```MAP_COMMANDS```MAP_COMMANDS\n[2]\n```\n[1]\n```")).toOption.map
        (fun p => (p.1, p.2.length)) =
      some (("```MAP_COMMANDS\n[1]\n```"), 1) ∧
    (extract_map_commandsS ("```MAP_COMMANDS\n[1]\n```")).toOption.map
        (fun p => (p.1, p.2.length)) ≠
      some (("```MAP_COMMANDS\n[1]\n```"), 0) :=
  ⟨by decide, by decide⟩

/-- C8, counterexample: the first matched block of this input has body
`{}` — valid JSON, not an array — yet the returned clean text is exactly
that block's text: removing a later well-formed block re-creates it, so the
non-array block is not absent from the returned clean text. -/
theorem nonarray_block_text_reappears :
    (findMatchesS ("```MAP_COMMANDS\n\x7b\x7d\n``````MAP_COMMANDS\n[5]\n``````MAP_COMMANDS\n\x7b```MAP_COMMANDS\n[5]\n```\x7d\n```")).head? =
      some (("```MAP_COMMANDS\n\x7b\x7d\n```"), ("\x7b\x7d")) ∧
    (json_loadsS ("\x7b\x7d")).toOption.map jIsArr = some false ∧
    (extract_map_commandsS ("```MAP_COMMANDS\n\x7b\x7d\n``````MAP_COMMANDS\n[5]\n``````MAP_COMMANDS\n\x7b```MAP_COMMANDS\n[5]\n```\x7d\n```")).toOption.map
        (fun p => (p.1, p.2.length)) =
      some (("```MAP_COMMANDS\n\x7b\x7d\n```"), 1) :=
  ⟨by decide, by decide, by decide⟩

/-- C8, amended: at its own processing step, a matched block whose body
parses as JSON but not as an array contributes no commands, while the
removal is still applied to the accumulated text (all occurrences of the
block's text deleted, result stripped); only later removals can make the
block's text reappear in the final clean text. -/
theorem nonarray_block_step_removes_without_commands
    (st : List Char × List JValue) (m : List Char × List Char) (v : JValue)
    (hv : json_loads m.2 = .ok v) (hna : jIsArr v = false) :
    extractStep st m = .ok (pyStrip (replaceAll st.1 m.1 []), st.2) := by
  unfold extractStep
  simp [hv, hna, tryExceptJSONDecode, bind, Except.bind, pure, Except.pure]

/-- C8, witness: the step on a block with body `{}`. -/
theorem nonarray_block_step_removes_without_commands_witness :
    json_loads (("\x7b\x7d").data) = .ok (JValue.obj []) ∧
    jIsArr (JValue.obj []) = false ∧
    extractStep ((("x").data), []) ((("```MAP_COMMANDS\n\x7b\x7d\n```").data), (("\x7b\x7d").data)) =
      .ok (pyStrip (replaceAll (("x").data) (("```MAP_COMMANDS\n\x7b\x7d\n```").data) []), []) :=
  ⟨rfl, rfl,
   nonarray_block_step_removes_without_commands _ _ (JValue.obj []) rfl rfl⟩

/-- C9: `extract_map_commands` is total — it returns a (clean text,
commands) pair on every input; the only fallible operation, `json.loads`,
only raises `JSONDecodeError`, which the handler catches. -/
theorem extract_never_raises (text : List Char) :
    ∃ p, extract_map_commands text = .ok p := by
  refine ⟨((findMatches text).foldl cleanStep text,
    ((findMatches text).map (fun m => blockCmds m.2)).flatten), ?_⟩
  unfold extract_map_commands
  rcases hms : findMatches text with _ | ⟨m, tl⟩ <;>
    simp [hms, extractLoop_eq, pure, Except.pure]

/-! ## Claims about configuration and startup -/

/-- C3, counterexample: with `MAPBOX_PUBLIC_TOKEN` absent from the
environment, the interactive-map script's startup check prints a warning and
continues — no configuration error is raised. -/
theorem public_token_missing_not_an_error :
    public_token_startup [] = StartupAction.warnContinue ∧
    raisesConfigError (public_token_startup []) = false :=
  ⟨rfl, rfl⟩

/-- C3, amended: if `MAPBOX_PUBLIC_TOKEN` is absent at script startup, the
interactive-map script prints a warning (the map will not load) and
continues; no error is raised for the public token. -/
theorem public_token_absent_warns_and_continues (environ : List (String × String))
    (h : envGet environ ("MAPBOX_PUBLIC_TOKEN") = none) :
    public_token_startup environ = StartupAction.warnContinue := by
  unfold public_token_startup
  simp [h]

/-- C3, witness: the empty environment. -/
theorem public_token_absent_warns_and_continues_witness :
    envGet [] ("MAPBOX_PUBLIC_TOKEN") = none ∧
    public_token_startup [] = StartupAction.warnContinue :=
  ⟨rfl, public_token_absent_warns_and_continues [] rfl⟩

/-- C4, counterexample: the claim says a present token always yields a
configuration.  With `MAPBOX_ACCESS_TOKEN` present but empty the guard
`if not mapbox_token` still raises `EnvironmentError`; and with a token
present but an unknown connection type the crewai function raises
`ValueError` — in both cases no configuration is returned. -/
theorem token_present_but_no_config :
    get_mcp_server [(("MAPBOX_ACCESS_TOKEN" : String), (""))] ("/d") =
      .error (.environmentError accessTokenRequiredMsg) ∧
    get_mapbox_mcp_config [(("MAPBOX_ACCESS_TOKEN" : String), ("pk.test"))] ("/d") ("grpc") =
      .error (.valueError ("Unknown connection type: grpc")) :=
  ⟨rfl, rfl⟩

/-- C4, amended: in every script, if `MAPBOX_ACCESS_TOKEN` is absent or
empty the configuration function raises `EnvironmentError` and returns no
configuration (whatever the connection type); if it is present and
non-empty, the pydantic-ai function returns its `node` configuration and the
crewai and langgraph functions return, for each supported connection type
(`node`, `npx`), a configuration whose subprocess environment is exactly
`{"MAPBOX_ACCESS_TOKEN": token}`. -/
theorem access_token_required_and_env (environ : List (String × String))
    (dir ct tok : String) :
    (pyFalsyStrOpt (envGet environ ("MAPBOX_ACCESS_TOKEN")) = true →
      get_mcp_server environ dir = .error (.environmentError accessTokenRequiredMsg) ∧
      get_mapbox_mcp_config environ dir ct = .error (.environmentError accessTokenRequiredMsg) ∧
      get_mcp_config environ dir ct = .error (.environmentError accessTokenRequiredMsg)) ∧
    (envGet environ ("MAPBOX_ACCESS_TOKEN") = some tok → ¬tok = "" →
      get_mcp_server environ dir =
        .ok { command := "node", args := [dist_script_path dir],
              env := [("MAPBOX_ACCESS_TOKEN", tok)], timeout := some 30 } ∧
      (get_mapbox_mcp_config environ dir ("node")).toOption.map MCPServerStdio.env =
        some [("MAPBOX_ACCESS_TOKEN", tok)] ∧
      (get_mapbox_mcp_config environ dir ("npx")).toOption.map MCPServerStdio.env =
        some [("MAPBOX_ACCESS_TOKEN", tok)] ∧
      (get_mcp_config environ dir ("node")).toOption.map LanggraphMcpConfig.env =
        some [("MAPBOX_ACCESS_TOKEN", tok)] ∧
      (get_mcp_config environ dir ("npx")).toOption.map LanggraphMcpConfig.env =
        some [("MAPBOX_ACCESS_TOKEN", tok)]) := by
  constructor
  · intro h
    refine ⟨?_, ?_, ?_⟩ <;>
      simp [get_mcp_server, get_mapbox_mcp_config, get_mcp_config, h]
  · intro h hne
    have hf : pyFalsyStrOpt (some tok) = false := by
      simpa [pyFalsyStrOpt] using hne
    refine ⟨?_, ?_, ?_, ?_, ?_⟩ <;>
      simp [get_mcp_server, get_mapbox_mcp_config, get_mcp_config, h, hf, strOptVal,
        Except.toOption]

/-- C4, witness: an empty environment for the raising branch and a
one-variable environment for the configuration branch. -/
theorem access_token_required_and_env_witness :
    pyFalsyStrOpt (envGet [] ("MAPBOX_ACCESS_TOKEN")) = true ∧
    get_mcp_server [] ("/d") = .error (.environmentError accessTokenRequiredMsg) ∧
    envGet [(("MAPBOX_ACCESS_TOKEN" : String), ("sk.token"))] ("MAPBOX_ACCESS_TOKEN") =
      some ("sk.token") ∧
    get_mcp_server [(("MAPBOX_ACCESS_TOKEN" : String), ("sk.token"))] ("/d") =
      .ok { command := "node", args := [dist_script_path ("/d")],
            env := [("MAPBOX_ACCESS_TOKEN", ("sk.token"))], timeout := some 30 } :=
  ⟨by decide,
   ((access_token_required_and_env [] ("/d") ("node") ("sk.token")).1 (by decide)).1,
   by decide,
   ((access_token_required_and_env [(("MAPBOX_ACCESS_TOKEN" : String), ("sk.token"))]
       ("/d") ("node") ("sk.token")).2 (by decide) (by decide)).1⟩

/-! ## Claims about the chat handlers and the UI -/

/-- C5: whatever exception the agent interaction raises, each chat handler
returns normally with the apologetic reply
`"Sorry, I encountered an error: <message>"` — with an empty map-command
string in the interactive-map handler and no image in the LangGraph
handler. -/
theorem agent_exception_sorry_reply (e : PyExc) :
    chat_async (.error e) = sorryReply e ∧
    chat_with_map_control (.error e) = (sorryReply e, ("")) ∧
    chat_with_images (.error e) = (sorryReply e, none) :=
  ⟨rfl, rfl, rfl⟩

/-- C7: a `Location` can be constructed from name, latitude and longitude
alone, the optional fields defaulting to `None`; omitting any of the three
required fields is a validation error. -/
theorem location_requires_name_lat_lon :
    (∀ (n : String) (la lo : PyFloat),
      location_validate { name := some n, latitude := some la, longitude := some lo } =
        .ok { name := n, latitude := la, longitude := lo }) ∧
    (∀ a : LocationArgs, a.name = none ∨ a.latitude = none ∨ a.longitude = none →
      ∃ errs, location_validate a = .error errs ∧ errs ≠ []) := by
  constructor
  · intro n la lo
    rfl
  · intro a h
    obtain ⟨nm, la, lo, ad, co, de⟩ := a
    cases nm <;> cases la <;> cases lo <;> simp_all [location_validate]

/-- C7, witness: a full construction and one with the name omitted. -/
theorem location_requires_name_lat_lon_witness :
    location_validate
        { name := some ("Palace of Culture and Science"),
          latitude := some ⟨("52.231953")⟩,
          longitude := some ⟨("21.006912")⟩ } =
      .ok { name := ("Palace of Culture and Science"),
            latitude := ⟨("52.231953")⟩, longitude := ⟨("21.006912")⟩ } ∧
    ∃ errs,
      location_validate
          { latitude := some ⟨("52.0")⟩, longitude := some ⟨("21.0")⟩ } =
        .error errs ∧ errs ≠ [] :=
  ⟨location_requires_name_lat_lon.1 _ _ _,
   location_requires_name_lat_lon.2 _ (Or.inl rfl)⟩

/-- C10: a message that is empty or whitespace-only short-circuits
`respond`: no agent call is made (the result does not depend on the chat
pipeline or the map-file writer), the history is returned unchanged with the
initial map HTML, and only the textbox is cleared. -/
theorem blank_message_leaves_state (cw : String → List ChatMsg → String × String)
    (cm : String → String) (mh msg : String) (hist : List ChatMsg)
    (h : msg.data.all isPySpace = true) :
    respond cw cm mh msg hist = (("") , hist, mh) := by
  have h1 : msg.data.dropWhile isPySpace = [] :=
    List.dropWhile_eq_nil_iff.mpr (fun x hx => List.all_eq_true.mp h x hx)
  have hs : pyStripS msg = "" := by
    unfold pyStripS pyStrip
    rw [h1]
    rfl
  unfold respond
  rw [hs]
  simp

/-- C10, witness: a tab-and-spaces message against arbitrary concrete
pipeline stubs. -/
theorem blank_message_leaves_state_witness :
    ((" \t ").data.all isPySpace = true) ∧
    respond (fun _ _ => (("") , (""))) (fun _ => ("")) ("init") (" \t ") [] =
      (("") , [], ("init")) :=
  ⟨by decide, blank_message_leaves_state _ _ _ _ _ (by decide)⟩
